import Mathlib

/-!
Verification of the attendance-bot core (src/main.py) against its
natural-language specification.

Shallow embedding conventions:
- Python dicts keyed by chat/user ids are association lists in insertion
  order (`List (Int × α)`); a fresh key is appended at the end, matching
  CPython dict insertion-order semantics.
- Python `int` is `Int` (arbitrary precision, possibly negative).
- Timestamps are integers (seconds); `datetime.datetime.now()` becomes an
  explicit `now : Int` parameter, and `timedelta` subtraction becomes `Int`
  subtraction of second counts.
- Telegram side effects (`query.answer`, `bot.send_message`,
  `job_queue.run_once`) are recorded as data in the handler's result:
  an optional answer string, a list of scheduled jobs, a list of
  notifications.
- An unhandled Python exception inside a handler is modelled as `none` /
  a `fault` flag on the result, with the store as it was when the
  exception was raised.
-/

/-- One entry of ACTIVITY_LIMITS in main.py: per-kind limit duration in
minutes and fine amount. -/
structure ActivityLimit where
  limit_min : Int
  fine : Int
deriving Repr, DecidableEq

/-- ACTIVITY_LIMITS from main.py lines 49-54. -/
def ACTIVITY_LIMITS : List (String × ActivityLimit) :=
  [("eat", ⟨30, 10⟩), ("toilet", ⟨15, 10⟩), ("smoke", ⟨10, 10⟩), ("meeting", ⟨60, 0⟩)]

/-- ADMIN_USER_IDS from main.py line 41. -/
def ADMIN_USER_IDS : List Int := [7124683213]

/-- An open activity record pushed on `user["activities"]`:
`{"type": query.data, "start": now}` (main.py line 150). -/
structure Activity where
  type : String
  start : Int
deriving Repr, DecidableEq

/-- The per-person dictionary created by `ensure_user` (main.py lines 83-90). -/
structure PersonState where
  name : String
  activities : List Activity
  daily_fines : Int
  monthly_fines : Int
  lang : String
  work_start : Option Int
deriving Repr, DecidableEq

/-- The default person dictionary that `ensure_user` installs for a new
user id (main.py lines 83-90). -/
def default_user (nm : String) : PersonState :=
  { name := nm, activities := [], daily_fines := 0, monthly_fines := 0,
    lang := "zh", work_start := none }

/-- The process-wide store `group_data : Dict[int, Dict[int, Dict[str, Any]]]`
(main.py line 62), as nested insertion-ordered association lists. -/
abbrev GroupData : Type := List (Int × List (Int × PersonState))

/-- Dict lookup on an association list. -/
def alookup {α : Type} (l : List (Int × α)) (k : Int) : Option α :=
  match l with
  | [] => none
  | (k', v) :: rest => if k' = k then some v else alookup rest k

/-- Dict assignment `d[k] = v`: replaces in place when the key exists,
appends at the end otherwise (CPython insertion order). -/
def aset {α : Type} (l : List (Int × α)) (k : Int) (v : α) : List (Int × α) :=
  match l with
  | [] => [(k, v)]
  | (k', v') :: rest => if k' = k then (k', v) :: rest else (k', v') :: aset rest k v

/-- In-place mutation of the value stored at key `k`; no effect when the
key is absent (models mutating a dict value reached through an alias). -/
def aupdate {α : Type} (l : List (Int × α)) (k : Int) (f : α → α) : List (Int × α) :=
  match l with
  | [] => []
  | (k', v) :: rest => if k' = k then (k', f v) :: rest else (k', v) :: aupdate rest k f

/-- Read `group_data[chat_id][user_id]`, if both keys are present. -/
def getUser (gd : GroupData) (chat uid : Int) : Option PersonState :=
  (alookup gd chat).bind (fun users => alookup users uid)

/-- ensure_user from main.py lines 78-91: create the group dict if absent,
then create the user entry with defaults if absent.  Returns the updated
store (the Python function returns an alias into it). -/
def ensure_user (gd : GroupData) (chat uid : Int) (nm : String) : GroupData :=
  let users := (alookup gd chat).getD []
  let users' :=
    if (alookup users uid).isSome then users else users ++ [(uid, default_user nm)]
  aset gd chat users'

/-- Mutation of the person entry `group_data[chat][uid]` through the alias
returned by `ensure_user` (e.g. `user["daily_fines"] += fine`). -/
def setUser (gd : GroupData) (chat uid : Int) (f : PersonState → PersonState) : GroupData :=
  aupdate gd chat (fun users => aupdate users uid f)

/-- The "no_activity" row of the NAMES label table (main.py line 74). -/
def NAMES_no_activity : List (String × String) :=
  [("zh", "⚠️ 您当前没有正在进行的活动。"),
   ("en", "⚠️ No activity running."),
   ("km", "⚠️ គ្មានសកម្មភាពកំពុងធ្វើ។")]

/-- Dict lookup keyed by strings (for ACTIVITY_LIMITS and NAMES rows). -/
def slookup {α : Type} (l : List (String × α)) (k : String) : Option α :=
  match l with
  | [] => none
  | (k', v) :: rest => if k' = k then some v else slookup rest k

/-- Python `str.strip()`: remove leading and trailing whitespace,
implemented structurally on the character list. -/
def pyStrip (s : String) : String :=
  ⟨((s.data.dropWhile Char.isWhitespace).reverse.dropWhile Char.isWhitespace).reverse⟩

/-- format_td from main.py lines 93-96: hours/minutes/seconds pieces,
each empty when zero, joined with single spaces and stripped.  Python `//`
and `%` are floor division and modulus, hence `Int.fdiv` / `Int.fmod`. -/
def format_td (total : Int) : String :=
  let h := total.fdiv 3600
  let m := (total.fmod 3600).fdiv 60
  let s := total.fmod 60
  pyStrip ((if h ≠ 0 then toString h ++ "h" else "") ++ " " ++
           (if m ≠ 0 then toString m ++ "m" else "") ++ " " ++
           (if s ≠ 0 then toString s ++ "s" else ""))

/-- One `job_queue.run_once(job, delay, context=(chat, user, act))` call
(main.py lines 154-155): which callback, its delay in seconds, and the
payload captured at scheduling time. -/
structure ScheduledJob where
  job : String
  delay : Int
  chat : Int
  user : Int
  act : String
deriving Repr, DecidableEq

/-- Result of one run of button_handler: the store after the handler, the
string passed to `query.answer` (if any), and the one-shot jobs scheduled. -/
structure HandlerResult where
  store : GroupData
  answer : Option String
  jobs : List ScheduledJob
deriving DecidableEq

/-- The acknowledgment `f"Back from {last[type]} ({format_td(duration)})"`
(main.py line 162). -/
def back_msg (act : String) (duration : Int) : String :=
  "Back from " ++ act ++ " (" ++ format_td duration ++ ")"

/-- button_handler from main.py lines 138-162.  `data` is
`query.data`; `now` is `datetime.datetime.now()`.  The branches follow the
source order: "work", "off", membership in ACTIVITY_LIMITS, "back"; any
other callback token falls through with no action after `ensure_user`.
In the "back" branch, `activities.getLast?` combines the emptiness test
with the `pop()` of the most recent record. -/
def button_handler (gd : GroupData) (chat uid : Int) (nm data : String) (now : Int) :
    HandlerResult :=
  let gd1 := ensure_user gd chat uid nm
  if data = "work" then
    { store := setUser gd1 chat uid (fun u => { u with work_start := some now }),
      answer := some "✅ Work started", jobs := [] }
  else if data = "off" then
    { store := setUser gd1 chat uid (fun u => { u with work_start := none }),
      answer := some "✅ Work ended", jobs := [] }
  else
    match slookup ACTIVITY_LIMITS data with
    | some lim =>
      { store := setUser gd1 chat uid
          (fun u => { u with activities := u.activities ++ [⟨data, now⟩] }),
        answer := some ("Started " ++ data),
        jobs := [⟨"warning", lim.limit_min * 60 - 60, chat, uid, data⟩,
                 ⟨"timeout", lim.limit_min * 60, chat, uid, data⟩] }
    | none =>
      if data = "back" then
        match getUser gd1 chat uid with
        | none => { store := gd1, answer := none, jobs := [] }
        | some u =>
          match u.activities.getLast? with
          | none =>
            { store := gd1, answer := slookup NAMES_no_activity u.lang, jobs := [] }
          | some last =>
            { store := setUser gd1 chat uid
                (fun v => { v with activities := v.activities.dropLast }),
              answer := some (back_msg last.type (now - last.start)), jobs := [] }
      else { store := gd1, answer := none, jobs := [] }

/-- An outbound `bot.send_message`, recorded structurally: which chat it
goes to and what it reports.  The exact HTML text of the timeout and
warning messages is not reproduced; the fields carry everything the text
interpolates. -/
inductive Notification where
  | timeoutMsg (chat uid : Int) (act : String) (fine : Int)
  | dailyResetDone (chat : Int)
  | monthlyReport (chat : Int) (text : String)
deriving Repr, DecidableEq

/-- timeout_job from main.py lines 169-175: ensure the user exists (name
`str(user_id)`), look up the fine for the activity kind, add it to both
daily and monthly totals, send the timeout notification.  A missing
activity kind would raise KeyError after the `ensure_user` call; that
unreachable fault is modelled as `none`. -/
def timeout_job (gd : GroupData) (chat uid : Int) (act : String) :
    Option (GroupData × Notification) :=
  let gd1 := ensure_user gd chat uid (toString uid)
  match slookup ACTIVITY_LIMITS act with
  | none => none
  | some lim =>
    some (setUser gd1 chat uid
            (fun u => { u with daily_fines := u.daily_fines + lim.fine,
                               monthly_fines := u.monthly_fines + lim.fine }),
          Notification.timeoutMsg chat uid act lim.fine)

/-- daily_reset_job from main.py lines 177-181: zero every person's daily
fines in every group, then send one completion message to
`list(group_data.keys())[0]`.  On an empty store that index raises
IndexError after the (empty) loop; the missing notification is `none`. -/
def daily_reset_job (gd : GroupData) : GroupData × Option Notification :=
  (gd.map (fun g => (g.1, g.2.map (fun up => (up.1, { up.2 with daily_fines := 0 })))),
   match gd with
   | [] => none
   | (c, _) :: _ => some (Notification.dailyResetDone c))

/-- The report string built by monthly_report_job for one group's users
(main.py lines 185-187): starts from the header and appends one line per
person, in iteration order, using the pre-reset monthly total. -/
def monthly_report_text (users : List (Int × PersonState)) : String :=
  users.foldl
    (fun acc up => acc ++ (up.2.name ++ ": " ++ toString up.2.monthly_fines ++ " 元\n"))
    "📊 Monthly Report:\n"

/-- monthly_report_job from main.py lines 183-189: for every group, build
the report from current monthly totals, zero each person's monthly total,
and send the report to that group. -/
def monthly_report_job (gd : GroupData) : GroupData × List Notification :=
  (gd.map (fun g => (g.1, g.2.map (fun up => (up.1, { up.2 with monthly_fines := 0 })))),
   gd.map (fun g => Notification.monthlyReport g.1 (monthly_report_text g.2)))

/-- Value of a decimal digit character, if it is one. -/
def digitVal (c : Char) : Option Nat :=
  if c.isDigit then some (c.toNat - 48) else none

/-- Parse a nonempty all-digit character list as a natural number. -/
def digitsToNat (cs : List Char) : Option Nat :=
  match cs with
  | [] => none
  | _ =>
    cs.foldl (fun acc c => acc.bind (fun n => (digitVal c).map (fun d => n * 10 + d)))
      (some 0)

/-- Python `int(s)` on a command argument, modelled as an optional sign
followed by decimal digits; `none` is the ValueError raise.  (Python also
strips whitespace and allows digit-group underscores; the admin command's
arguments are whitespace-split tokens, so only sign and digits matter.) -/
def py_int (s : String) : Option Int :=
  match s.data with
  | [] => none
  | '-' :: rest => (digitsToNat rest).map (fun n => -(n : Int))
  | '+' :: rest => (digitsToNat rest).map (fun n => (n : Int))
  | cs => (digitsToNat cs).map (fun n => (n : Int))

/-- Result of one run of cmd_fine: the store afterwards, the text passed
to `update.message.reply_text` (if any), and whether an exception escaped
the handler. -/
structure FineResult where
  store : GroupData
  reply : Option String
  fault : Bool
deriving DecidableEq

/-- cmd_fine from main.py lines 202-212.  `caller` is
`update.effective_user.id`, `chat` is `update.effective_chat.id`, `args`
is `context.args`.  Non-admins fall out silently; fewer than two
arguments get the usage reply; then both arguments are parsed with
`int(...)` (a parse failure raises ValueError out of the handler before
any store mutation); on success the amount is added to both fine totals
of the (created-if-absent) target user. -/
def cmd_fine (gd : GroupData) (caller chat : Int) (args : List String) : FineResult :=
  if caller ∈ ADMIN_USER_IDS then
    match args with
    | a0 :: a1 :: _ =>
      match py_int a0, py_int a1 with
      | some uid, some amount =>
        let gd1 := ensure_user gd chat uid (toString uid)
        { store := setUser gd1 chat uid
            (fun u => { u with daily_fines := u.daily_fines + amount,
                               monthly_fines := u.monthly_fines + amount }),
          reply := some ("✅ Fine " ++ toString amount ++ " added to " ++ toString uid),
          fault := false }
      | _, _ => { store := gd, reply := none, fault := true }
    | _ => { store := gd, reply := some "Usage: /fine user_id amount", fault := false }
  else { store := gd, reply := none, fault := false }

/-- Both fine totals of every person in the store are non-negative. -/
def finesNonneg (gd : GroupData) : Bool :=
  gd.all (fun g => g.2.all (fun up => 0 ≤ up.2.daily_fines && 0 ≤ up.2.monthly_fines))

/-! ### Association-list lemmas -/

theorem alookup_aset_self {α : Type} (l : List (Int × α)) (k : Int) (v : α) :
    alookup (aset l k v) k = some v := by
  induction l with
  | nil => simp [aset, alookup]
  | cons hd tl ih =>
    by_cases h : hd.1 = k
    · simp [aset, alookup, h]
    · simp [aset, alookup, h, ih]

theorem aset_of_lookup_eq {α : Type} (l : List (Int × α)) (k : Int) (v : α)
    (h : alookup l k = some v) : aset l k v = l := by
  induction l with
  | nil => simp [alookup] at h
  | cons hd tl ih =>
    obtain ⟨k1, v1⟩ := hd
    by_cases hk : k1 = k
    · simp only [alookup, if_pos hk, Option.some_inj] at h
      simp [aset, hk, h]
    · simp only [alookup, if_neg hk] at h
      simp [aset, hk, ih h]

theorem alookup_mem {α : Type} (l : List (Int × α)) (k : Int) (v : α)
    (h : alookup l k = some v) : (k, v) ∈ l := by
  induction l with
  | nil => simp [alookup] at h
  | cons hd tl ih =>
    obtain ⟨k1, v1⟩ := hd
    by_cases hk : k1 = k
    · simp only [alookup, if_pos hk, Option.some_inj] at h
      subst hk; subst h
      exact List.mem_cons_self _ _
    · simp only [alookup, if_neg hk] at h
      exact List.mem_cons_of_mem _ (ih h)

theorem alookup_aupdate_self {α : Type} (l : List (Int × α)) (k : Int) (f : α → α) :
    alookup (aupdate l k f) k = (alookup l k).map f := by
  induction l with
  | nil => simp [aupdate, alookup]
  | cons hd tl ih =>
    by_cases h : hd.1 = k
    · simp [aupdate, alookup, h]
    · simp [aupdate, alookup, h, ih]

theorem alookup_append_right {α : Type} (l1 l2 : List (Int × α)) (k : Int)
    (h : alookup l1 k = none) : alookup (l1 ++ l2) k = alookup l2 k := by
  induction l1 with
  | nil => simp
  | cons hd tl ih =>
    by_cases hk : hd.1 = k
    · simp [alookup, hk] at h
    · simp [alookup, hk] at h ⊢
      exact ih h

theorem alookup_map {α β : Type} (l : List (Int × α)) (k : Int) (f : α → β) :
    alookup (l.map (fun x => (x.1, f x.2))) k = (alookup l k).map f := by
  induction l with
  | nil => simp [alookup]
  | cons hd tl ih =>
    by_cases h : hd.1 = k
    · simp [alookup, h]
    · simp [alookup, h, ih]

theorem all_aset {α : Type} (l : List (Int × α)) (k : Int) (v : α) (p : Int × α → Bool)
    (hl : l.all p = true) (hv : p (k, v) = true) : (aset l k v).all p = true := by
  induction l with
  | nil => simpa [aset]
  | cons hd tl ih =>
    obtain ⟨k1, v1⟩ := hd
    simp only [List.all_cons, Bool.and_eq_true] at hl
    by_cases h : k1 = k
    · subst h
      have hrw : aset ((k1, v1) :: tl) k1 v = (k1, v) :: tl := by simp [aset]
      rw [hrw, List.all_cons, Bool.and_eq_true]
      exact ⟨hv, hl.2⟩
    · simp only [aset, if_neg h, List.all_cons, Bool.and_eq_true]
      exact ⟨hl.1, ih hl.2⟩

theorem all_aupdate {α : Type} (l : List (Int × α)) (k : Int) (f : α → α) (p : Int × α → Bool)
    (hl : l.all p = true) (hf : ∀ k' x, p (k', x) = true → p (k', f x) = true) :
    (aupdate l k f).all p = true := by
  induction l with
  | nil => simp [aupdate]
  | cons hd tl ih =>
    obtain ⟨k1, v1⟩ := hd
    simp only [List.all_cons, Bool.and_eq_true] at hl
    by_cases h : k1 = k
    · simp only [aupdate, if_pos h, List.all_cons, Bool.and_eq_true]
      exact ⟨hf k1 v1 hl.1, hl.2⟩
    · simp only [aupdate, if_neg h, List.all_cons, Bool.and_eq_true]
      exact ⟨hl.1, ih hl.2⟩

/-! ### Store-operation lemmas -/

theorem getUser_ensure_user_self (gd : GroupData) (chat uid : Int) (nm : String) :
    getUser (ensure_user gd chat uid nm) chat uid =
      some ((getUser gd chat uid).getD (default_user nm)) := by
  unfold getUser ensure_user
  rw [alookup_aset_self]
  cases hg : alookup gd chat with
  | none =>
    simp only [Option.getD_none, Option.none_bind]
    simp [alookup]
  | some users =>
    simp only [Option.getD_some, Option.some_bind]
    cases hu : alookup users uid with
    | none =>
      simp only [hu, Option.isSome_none, Bool.false_eq_true, if_false, Option.getD_none]
      rw [alookup_append_right _ _ _ hu]
      simp [alookup]
    | some p => simp [hu]

theorem ensure_user_of_mem (gd : GroupData) (chat uid : Int) (nm : String) (p : PersonState)
    (h : getUser gd chat uid = some p) : ensure_user gd chat uid nm = gd := by
  unfold getUser at h
  unfold ensure_user
  cases hg : alookup gd chat with
  | none => simp [hg] at h
  | some users =>
    simp only [hg, Option.some_bind] at h
    simp only [hg, Option.getD_some, h, Option.isSome_some, if_true]
    exact aset_of_lookup_eq _ _ _ hg

theorem getUser_setUser_self (gd : GroupData) (chat uid : Int) (f : PersonState → PersonState) :
    getUser (setUser gd chat uid f) chat uid = (getUser gd chat uid).map f := by
  unfold getUser setUser
  rw [alookup_aupdate_self]
  cases hg : alookup gd chat with
  | none => simp
  | some users => simp [alookup_aupdate_self]

theorem finesNonneg_ensure_user (gd : GroupData) (chat uid : Int) (nm : String)
    (h : finesNonneg gd = true) : finesNonneg (ensure_user gd chat uid nm) = true := by
  unfold finesNonneg ensure_user at *
  apply all_aset _ _ _ _ h
  simp only
  cases hg : alookup gd chat with
  | none =>
    simp only [Option.getD_none]
    simp [alookup, default_user]
  | some users =>
    simp only [Option.getD_some]
    have husers :
        (users.all fun up =>
          decide (0 ≤ up.2.daily_fines) && decide (0 ≤ up.2.monthly_fines)) = true :=
      List.all_eq_true.mp h (chat, users) (alookup_mem gd chat users hg)
    by_cases hu : (alookup users uid).isSome = true
    · rw [if_pos hu]
      exact husers
    · rw [if_neg hu]
      simp only [List.all_append, Bool.and_eq_true]
      refine ⟨husers, ?_⟩
      simp [default_user]

theorem finesNonneg_setUser (gd : GroupData) (chat uid : Int) (f : PersonState → PersonState)
    (h : finesNonneg gd = true)
    (hf : ∀ p, 0 ≤ p.daily_fines → 0 ≤ p.monthly_fines →
          0 ≤ (f p).daily_fines ∧ 0 ≤ (f p).monthly_fines) :
    finesNonneg (setUser gd chat uid f) = true := by
  unfold finesNonneg setUser at *
  apply all_aupdate _ _ _ _ h
  intro k users hall
  apply all_aupdate _ _ _ _ hall
  intro k' x hx
  simp only [Bool.and_eq_true, decide_eq_true_eq] at hx ⊢
  exact hf x hx.1 hx.2

theorem getUser_map (gd : GroupData) (chat uid : Int) (f : PersonState → PersonState) :
    getUser (gd.map (fun g => (g.1, g.2.map (fun up => (up.1, f up.2))))) chat uid =
      (getUser gd chat uid).map f := by
  unfold getUser
  rw [alookup_map gd chat (fun users => users.map (fun up => (up.1, f up.2)))]
  cases alookup gd chat with
  | none => rfl
  | some users => exact alookup_map users uid f

/-! ### Report-string lemmas -/

theorem foldl_str_shift {α : Type} (g : α → String) (l : List α) :
    ∀ init : String,
      l.foldl (fun a x => a ++ g x) init = init ++ l.foldl (fun a x => a ++ g x) "" := by
  induction l with
  | nil => intro init; simp [String.append_empty]
  | cons hd tl ih =>
    intro init
    simp only [List.foldl_cons]
    rw [ih (init ++ g hd), ih ("" ++ g hd), String.empty_append, String.append_assoc]

theorem monthly_report_text_mem (users : List (Int × PersonState)) (uid : Int)
    (p : PersonState) (h : (uid, p) ∈ users) :
    ∃ s t, monthly_report_text users =
      s ++ (p.name ++ ": " ++ toString p.monthly_fines ++ " 元\n") ++ t := by
  obtain ⟨l1, l2, rfl⟩ := List.append_of_mem h
  refine ⟨monthly_report_text l1,
          l2.foldl (fun a up => a ++ (up.2.name ++ ": " ++ toString up.2.monthly_fines ++ " 元\n")) "",
          ?_⟩
  unfold monthly_report_text
  rw [List.foldl_append, List.foldl_cons, foldl_str_shift]

/-! ### ACTIVITY_LIMITS facts -/

theorem ACTIVITY_LIMITS_cases (k : String) (lim : ActivityLimit)
    (h : slookup ACTIVITY_LIMITS k = some lim) :
    (k = "eat" ∧ lim = ⟨30, 10⟩) ∨ (k = "toilet" ∧ lim = ⟨15, 10⟩) ∨
    (k = "smoke" ∧ lim = ⟨10, 10⟩) ∨ (k = "meeting" ∧ lim = ⟨60, 0⟩) := by
  simp only [ACTIVITY_LIMITS, slookup] at h
  split_ifs at h with h1 h2 h3 h4
  · exact Or.inl ⟨h1.symm, (Option.some_inj.mp h).symm⟩
  · exact Or.inr (Or.inl ⟨h2.symm, (Option.some_inj.mp h).symm⟩)
  · exact Or.inr (Or.inr (Or.inl ⟨h3.symm, (Option.some_inj.mp h).symm⟩))
  · exact Or.inr (Or.inr (Or.inr ⟨h4.symm, (Option.some_inj.mp h).symm⟩))

theorem ACTIVITY_LIMITS_fine_nonneg (k : String) (lim : ActivityLimit)
    (h : slookup ACTIVITY_LIMITS k = some lim) : 0 ≤ lim.fine := by
  rcases ACTIVITY_LIMITS_cases k lim h with ⟨_, rfl⟩ | ⟨_, rfl⟩ | ⟨_, rfl⟩ | ⟨_, rfl⟩ <;> decide

theorem ACTIVITY_LIMITS_delay_pos (k : String) (lim : ActivityLimit)
    (h : slookup ACTIVITY_LIMITS k = some lim) : 0 < lim.limit_min * 60 - 60 := by
  rcases ACTIVITY_LIMITS_cases k lim h with ⟨_, rfl⟩ | ⟨_, rfl⟩ | ⟨_, rfl⟩ | ⟨_, rfl⟩ <;> decide

theorem ACTIVITY_LIMITS_ne_work (k : String) (lim : ActivityLimit)
    (h : slookup ACTIVITY_LIMITS k = some lim) : k ≠ "work" ∧ k ≠ "off" := by
  rcases ACTIVITY_LIMITS_cases k lim h with ⟨rfl, _⟩ | ⟨rfl, _⟩ | ⟨rfl, _⟩ | ⟨rfl, _⟩ <;>
    exact ⟨by decide, by decide⟩

/-! ### button_handler branch reductions -/

theorem button_handler_activity (gd : GroupData) (chat uid : Int) (nm k : String) (now : Int)
    (lim : ActivityLimit) (hk : slookup ACTIVITY_LIMITS k = some lim) :
    button_handler gd chat uid nm k now =
      { store := setUser (ensure_user gd chat uid nm) chat uid
          (fun u => { u with activities := u.activities ++ [⟨k, now⟩] }),
        answer := some ("Started " ++ k),
        jobs := [⟨"warning", lim.limit_min * 60 - 60, chat, uid, k⟩,
                 ⟨"timeout", lim.limit_min * 60, chat, uid, k⟩] } := by
  obtain ⟨hw, ho⟩ := ACTIVITY_LIMITS_ne_work k lim hk
  unfold button_handler
  rw [if_neg hw, if_neg ho, hk]

theorem button_handler_back (gd : GroupData) (chat uid : Int) (nm : String) (now : Int)
    (p : PersonState) (hp : getUser gd chat uid = some p) :
    button_handler gd chat uid nm "back" now =
      match p.activities.getLast? with
      | none => { store := gd, answer := slookup NAMES_no_activity p.lang, jobs := [] }
      | some last =>
        { store := setUser gd chat uid
            (fun v => { v with activities := v.activities.dropLast }),
          answer := some (back_msg last.type (now - last.start)), jobs := [] } := by
  unfold button_handler
  rw [if_neg (by decide : ¬("back" = "work")), if_neg (by decide : ¬("back" = "off"))]
  rw [show slookup ACTIVITY_LIMITS "back" = none from by decide]
  rw [if_pos rfl]
  rw [ensure_user_of_mem gd chat uid nm p hp, hp]

/-! ### Claim theorems -/

/-- C1 (counterexample): starting from the empty store, whose fine totals
are all non-negative, a single admin invocation of the fine command with a
negative amount creates person 5 with daily and monthly totals equal to
-3, so the store no longer satisfies the non-negativity invariant. -/
theorem C1_counterexample :
    finesNonneg [] = true ∧ (7124683213 : Int) ∈ ADMIN_USER_IDS ∧
    getUser (cmd_fine [] 7124683213 1 ["5", "-3"]).store 1 5 =
      some { name := "5", activities := [], daily_fines := -3, monthly_fines := -3,
             lang := "zh", work_start := none } ∧
    finesNonneg (cmd_fine [] 7124683213 1 ["5", "-3"]).store = false := by
  refine ⟨rfl, by decide, by decide, by decide⟩

/-- C1 (amended): every operation on the store preserves non-negativity of
all daily and monthly fine totals, except AdminSetFine, which needs the
added amount to be non-negative: button presses never decrease fines,
TimeoutFired adds a (non-negative) configured fine, the daily and monthly
reset jobs only zero totals, and cmd_fine with a non-negative amount
preserves the invariant.  (cmd_fine with a negative amount can break it.) -/
theorem C1_amended_nonneg (gd : GroupData) (h : finesNonneg gd = true) :
    (∀ chat uid nm data now,
      finesNonneg (button_handler gd chat uid nm data now).store = true) ∧
    (∀ chat uid act gd' note,
      timeout_job gd chat uid act = some (gd', note) → finesNonneg gd' = true) ∧
    finesNonneg (daily_reset_job gd).1 = true ∧
    finesNonneg (monthly_report_job gd).1 = true ∧
    (∀ caller chat a0 a1 rest uid amount,
      py_int a0 = some uid → py_int a1 = some amount → 0 ≤ amount →
      finesNonneg (cmd_fine gd caller chat (a0 :: a1 :: rest)).store = true) := by
  refine ⟨?_, ?_, ?_, ?_, ?_⟩
  · intro chat uid nm data now
    have h1 := finesNonneg_ensure_user gd chat uid nm h
    simp only [button_handler]
    split
    · exact finesNonneg_setUser _ _ _ _ h1 (fun p hd hm => ⟨hd, hm⟩)
    · split
      · exact finesNonneg_setUser _ _ _ _ h1 (fun p hd hm => ⟨hd, hm⟩)
      · split
        · exact finesNonneg_setUser _ _ _ _ h1 (fun p hd hm => ⟨hd, hm⟩)
        · split
          · split
            · exact h1
            · split
              · exact h1
              · exact finesNonneg_setUser _ _ _ _ h1 (fun p hd hm => ⟨hd, hm⟩)
          · exact h1
  · intro chat uid act gd' note ht
    unfold timeout_job at ht
    cases hs : slookup ACTIVITY_LIMITS act with
    | none => rw [hs] at ht; exact absurd ht (by simp)
    | some lim =>
      rw [hs] at ht
      simp only [Option.some_inj, Prod.mk.injEq] at ht
      have hfine := ACTIVITY_LIMITS_fine_nonneg act lim hs
      have h1 := finesNonneg_ensure_user gd chat uid (toString uid) h
      rw [← ht.1]
      exact finesNonneg_setUser _ _ _ _ h1
        (fun p hd hm => ⟨add_nonneg hd hfine, add_nonneg hm hfine⟩)
  · show finesNonneg (gd.map (fun g =>
      (g.1, g.2.map (fun up => (up.1, { up.2 with daily_fines := 0 }))))) = true
    apply List.all_eq_true.mpr
    intro g hg
    obtain ⟨g0, hg0, rfl⟩ := List.mem_map.mp hg
    apply List.all_eq_true.mpr
    intro up hup
    obtain ⟨up0, hup0, rfl⟩ := List.mem_map.mp hup
    have h2 := List.all_eq_true.mp (List.all_eq_true.mp h g0 hg0) up0 hup0
    simp only [Bool.and_eq_true, decide_eq_true_eq] at h2 ⊢
    exact ⟨le_refl 0, h2.2⟩
  · show finesNonneg (gd.map (fun g =>
      (g.1, g.2.map (fun up => (up.1, { up.2 with monthly_fines := 0 }))))) = true
    apply List.all_eq_true.mpr
    intro g hg
    obtain ⟨g0, hg0, rfl⟩ := List.mem_map.mp hg
    apply List.all_eq_true.mpr
    intro up hup
    obtain ⟨up0, hup0, rfl⟩ := List.mem_map.mp hup
    have h2 := List.all_eq_true.mp (List.all_eq_true.mp h g0 hg0) up0 hup0
    simp only [Bool.and_eq_true, decide_eq_true_eq] at h2 ⊢
    exact ⟨h2.1, le_refl 0⟩
  · intro caller chat a0 a1 rest uid amount hu ha hnn
    unfold cmd_fine
    split
    · simp only [hu, ha]
      exact finesNonneg_setUser _ _ _ _
        (finesNonneg_ensure_user gd chat uid (toString uid) h)
        (fun p hd hm => ⟨add_nonneg hd hnn, add_nonneg hm hnn⟩)
    · exact h

/-- Witness for C1: instantiates the amended preservation theorem on the
empty store and evaluates the daily-reset conjunct. -/
theorem C1_witness : finesNonneg (daily_reset_job []).1 = true :=
  (C1_amended_nonneg [] rfl).2.2.1

/-- C2 (counterexample): an admin invocation of the fine command whose
first argument does not parse as an integer produces no usage message and
escapes the handler as an unhandled ValueError (fault), contradicting the
claim that every malformed invocation yields a usage reply without a
fault. -/
theorem C2_counterexample :
    cmd_fine [] 7124683213 1 ["abc", "5"] =
      { store := [], reply := none, fault := true } := by
  decide

/-- C2 (amended): for an admin caller, fewer than two arguments produce
the usage reply with no mutation and no fault; two or more arguments of
which one does not parse as an integer produce no mutation and no reply,
but an unhandled ValueError escapes the handler. -/
theorem C2_amended_malformed (gd : GroupData) (caller chat : Int) (args : List String)
    (hadm : caller ∈ ADMIN_USER_IDS) :
    (args.length < 2 →
      cmd_fine gd caller chat args =
        { store := gd, reply := some "Usage: /fine user_id amount", fault := false }) ∧
    (∀ a0 a1 rest, args = a0 :: a1 :: rest →
      py_int a0 = none ∨ py_int a1 = none →
      cmd_fine gd caller chat args = { store := gd, reply := none, fault := true }) := by
  constructor
  · intro hlen
    cases args with
    | nil => unfold cmd_fine; rw [if_pos hadm]
    | cons a0 t =>
      cases t with
      | nil => unfold cmd_fine; rw [if_pos hadm]
      | cons a1 t2 => simp only [List.length_cons] at hlen; omega
  · rintro a0 a1 rest rfl hbad
    unfold cmd_fine
    rw [if_pos hadm]
    rcases hbad with hb | hb
    · cases hpa : py_int a1 with
      | none => simp only [hb, hpa]
      | some v => simp only [hb, hpa]
    · cases hpa : py_int a0 with
      | none => simp only [hpa, hb]
      | some v => simp only [hpa, hb]

/-- Witness for C2: the amended theorem applied to a concrete admin call
with a single argument (usage reply) and to a concrete call with a
non-integer second argument (fault). -/
theorem C2_witness :
    cmd_fine [] 7124683213 1 ["5"] =
      { store := [], reply := some "Usage: /fine user_id amount", fault := false } ∧
    cmd_fine [] 7124683213 1 ["5", "x"] =
      { store := [], reply := none, fault := true } :=
  ⟨(C2_amended_malformed [] 7124683213 1 ["5"] (by decide)).1 (by decide),
   (C2_amended_malformed [] 7124683213 1 ["5", "x"] (by decide)).2 "5" "x" [] rfl
     (Or.inr (by decide))⟩

/-- C4 (confirmed): one run of the daily reset job maps every person of
every group to the same person state with the daily fine total set to
zero; no person appears or disappears and no other field (monthly total,
activities, name, language, work start) changes. -/
theorem C4_daily_reset_frame (gd : GroupData) (chat uid : Int) :
    getUser (daily_reset_job gd).1 chat uid =
      (getUser gd chat uid).map (fun p => { p with daily_fines := 0 }) :=
  getUser_map gd chat uid (fun p => { p with daily_fines := 0 })

/-- C5 (confirmed): one run of the monthly report job maps every person of
every group to the same state with the monthly fine total set to zero
(daily totals and all other fields unchanged, nobody added or removed),
and for every group present at call time it emits to that group a report
containing one line per person with the person's display name and
pre-reset monthly fine total. -/
theorem C5_monthly_report (gd : GroupData) :
    (∀ chat uid, getUser (monthly_report_job gd).1 chat uid =
        (getUser gd chat uid).map (fun p => { p with monthly_fines := 0 })) ∧
    (∀ chat users uid p, (chat, users) ∈ gd → (uid, p) ∈ users →
      Notification.monthlyReport chat (monthly_report_text users) ∈
        (monthly_report_job gd).2 ∧
      ∃ s t, monthly_report_text users =
        s ++ (p.name ++ ": " ++ toString p.monthly_fines ++ " 元\n") ++ t) := by
  constructor
  · intro chat uid
    exact getUser_map gd chat uid (fun p => { p with monthly_fines := 0 })
  · intro chat users uid p hg hu
    refine ⟨?_, monthly_report_text_mem users uid p hu⟩
    show Notification.monthlyReport chat (monthly_report_text users) ∈
      gd.map (fun g => Notification.monthlyReport g.1 (monthly_report_text g.2))
    exact List.mem_map_of_mem _ hg

/-- Witness for C5: the report for a one-group, one-person store contains
the person's line, as obtained by applying the theorem. -/
theorem C5_witness :
    Notification.monthlyReport 1
        (monthly_report_text [(5, { default_user "Bob" with monthly_fines := 7 })]) ∈
      (monthly_report_job
        [(1, [(5, { default_user "Bob" with monthly_fines := 7 })])]).2 ∧
    ∃ s t, monthly_report_text [(5, { default_user "Bob" with monthly_fines := 7 })] =
      s ++ ("Bob" ++ ": " ++ toString (7 : Int) ++ " 元\n") ++ t :=
  (C5_monthly_report [(1, [(5, { default_user "Bob" with monthly_fines := 7 })])]).2
    1 [(5, { default_user "Bob" with monthly_fines := 7 })]
    5 { default_user "Bob" with monthly_fines := 7 }
    (List.mem_singleton.mpr rfl) (List.mem_singleton.mpr rfl)

/-- C8 (confirmed): the fine command invoked by a caller outside the admin
id set returns with the store untouched, no reply of any kind, and no
fault. -/
theorem C8_nonadmin_noop (gd : GroupData) (caller chat : Int) (args : List String)
    (h : caller ∉ ADMIN_USER_IDS) :
    cmd_fine gd caller chat args = { store := gd, reply := none, fault := false } := by
  unfold cmd_fine
  rw [if_neg h]

/-- Witness for C8: a non-admin caller id 0 issuing a well-formed fine
command has no effect on the empty store and gets no reply. -/
theorem C8_witness :
    cmd_fine [] 0 1 ["5", "20"] = { store := [], reply := none, fault := false } :=
  C8_nonadmin_noop [] 0 1 ["5", "20"] (by decide)

/-- C10 (confirmed): the daily reset job's completion notification is sent
by indexing the first key of the group map: on a store with zero groups
that index faults (no notification can be produced), and on a non-empty
store exactly the first group in insertion order is notified. -/
theorem C10_daily_reset_notification (gd : GroupData) :
    (gd = [] → (daily_reset_job gd).2 = none) ∧
    (∀ c us rest, gd = (c, us) :: rest →
      (daily_reset_job gd).2 = some (Notification.dailyResetDone c)) := by
  constructor
  · rintro rfl; rfl
  · rintro c us rest rfl; rfl

/-- Witness for C10: evaluated on the empty store (fault: no notification)
and on a two-group store (only the first group, id 5, is notified). -/
theorem C10_witness :
    (daily_reset_job ([] : GroupData)).2 = none ∧
    (daily_reset_job [(5, []), (6, [])]).2 = some (Notification.dailyResetDone 5) :=
  ⟨(C10_daily_reset_notification []).1 rfl,
   (C10_daily_reset_notification [(5, []), (6, [])]).2 5 [] [(6, [])] rfl⟩

/-- C3 (confirmed): one firing of timeout_job for an activity kind with
configured limit entry adds exactly that entry's fine to both the daily
and the monthly fine total of the person (the person is created with
defaults first if absent, and is left as found otherwise), the addition
happens exactly once, and the fine is non-negative so neither total
decreases; the emitted notification names the person, the activity and
the fine amount. -/
theorem C3_timeout_adds_fine (gd : GroupData) (chat uid : Int) (act : String)
    (lim : ActivityLimit) (h : slookup ACTIVITY_LIMITS act = some lim) :
    ∃ gd' p0,
      timeout_job gd chat uid act =
        some (gd', Notification.timeoutMsg chat uid act lim.fine) ∧
      getUser (ensure_user gd chat uid (toString uid)) chat uid = some p0 ∧
      (getUser gd chat uid = none → p0 = default_user (toString uid)) ∧
      (∀ q, getUser gd chat uid = some q → p0 = q) ∧
      getUser gd' chat uid =
        some { p0 with daily_fines := p0.daily_fines + lim.fine,
                       monthly_fines := p0.monthly_fines + lim.fine } ∧
      0 ≤ lim.fine := by
  refine ⟨setUser (ensure_user gd chat uid (toString uid)) chat uid
      (fun u => { u with daily_fines := u.daily_fines + lim.fine,
                         monthly_fines := u.monthly_fines + lim.fine }),
    (getUser gd chat uid).getD (default_user (toString uid)), ?_, ?_, ?_, ?_, ?_, ?_⟩
  · unfold timeout_job
    rw [h]
  · exact getUser_ensure_user_self gd chat uid (toString uid)
  · intro hn; rw [hn]; rfl
  · intro q hq; rw [hq]; rfl
  · rw [getUser_setUser_self, getUser_ensure_user_self]
    rfl
  · exact ACTIVITY_LIMITS_fine_nonneg act lim h

/-- Witness for C3: a timeout for "toilet" on the empty store creates
person 2 with defaults and leaves it with both totals equal to 0 + 10. -/
theorem C3_witness :
    ∃ gd' p0,
      timeout_job [] 1 2 "toilet" = some (gd', Notification.timeoutMsg 1 2 "toilet" 10) ∧
      getUser (ensure_user [] 1 2 (toString (2 : Int))) 1 2 = some p0 ∧
      (getUser [] 1 2 = none → p0 = default_user (toString (2 : Int))) ∧
      (∀ q, getUser [] 1 2 = some q → p0 = q) ∧
      getUser gd' 1 2 =
        some { p0 with daily_fines := p0.daily_fines + 10,
                       monthly_fines := p0.monthly_fines + 10 } ∧
      (0 : Int) ≤ 10 :=
  C3_timeout_adds_fine [] 1 2 "toilet" ⟨15, 10⟩ (by decide)

/-- C6 (confirmed): a "back" press by a person who exists in the store
with an empty activity stack leaves the entire store unchanged (no field
of any person mutated), schedules nothing, and answers with the
no-activity label looked up under that person's stored language
preference (a label exists for each of the three supported languages). -/
theorem C6_back_no_activity (gd : GroupData) (chat uid : Int) (nm : String) (now : Int)
    (p : PersonState) (hp : getUser gd chat uid = some p) (hemp : p.activities = []) :
    button_handler gd chat uid nm "back" now =
      { store := gd, answer := slookup NAMES_no_activity p.lang, jobs := [] } ∧
    (p.lang = "zh" ∨ p.lang = "en" ∨ p.lang = "km" →
      (slookup NAMES_no_activity p.lang).isSome = true) := by
  constructor
  · rw [button_handler_back gd chat uid nm now p hp]
    simp [hemp]
  · rintro (hl | hl | hl) <;> rw [hl] <;> decide

/-- Witness for C6: person 2 ("Bob", default state, empty stack) presses
"back"; the store is unchanged and the answer is the zh no-activity
label. -/
theorem C6_witness :
    button_handler [(1, [(2, default_user "Bob")])] 1 2 "Bob" "back" 100 =
      { store := [(1, [(2, default_user "Bob")])],
        answer := some "⚠️ 您当前没有正在进行的活动。", jobs := [] } :=
  ((C6_back_no_activity [(1, [(2, default_user "Bob")])] 1 2 "Bob" 100
      (default_user "Bob") (by decide) rfl).1).trans (by decide)

/-- C7 (confirmed): starting activity k and immediately pressing "back"
at the same instant pops exactly the record just pushed (the most recent,
last element of the stack — LIFO), restores the activity stack (hence its
depth) to its value before the start, and acknowledges an elapsed
duration of now - now = 0, formatted as the empty string. -/
theorem C7_push_pop (gd : GroupData) (chat uid : Int) (nm k : String) (now : Int)
    (lim : ActivityLimit) (hk : slookup ACTIVITY_LIMITS k = some lim) :
    ∃ p0 p1,
      getUser (ensure_user gd chat uid nm) chat uid = some p0 ∧
      getUser (button_handler gd chat uid nm k now).store chat uid = some p1 ∧
      p1.activities = p0.activities ++ [⟨k, now⟩] ∧
      p1.activities.getLast? = some ⟨k, now⟩ ∧
      getUser (button_handler (button_handler gd chat uid nm k now).store
                 chat uid nm "back" now).store chat uid =
        some { p1 with activities := p0.activities } ∧
      (button_handler (button_handler gd chat uid nm k now).store
         chat uid nm "back" now).answer = some (back_msg k (now - now)) ∧
      back_msg k (now - now) = "Back from " ++ k ++ " ()" := by
  have h0 : getUser (ensure_user gd chat uid nm) chat uid =
      some ((getUser gd chat uid).getD (default_user nm)) :=
    getUser_ensure_user_self gd chat uid nm
  have hbh := button_handler_activity gd chat uid nm k now lim hk
  have h1 : getUser (button_handler gd chat uid nm k now).store chat uid =
      some { (getUser gd chat uid).getD (default_user nm) with
             activities := ((getUser gd chat uid).getD (default_user nm)).activities
               ++ [⟨k, now⟩] } := by
    rw [hbh]
    show getUser (setUser (ensure_user gd chat uid nm) chat uid _) chat uid = _
    rw [getUser_setUser_self, h0]
    rfl
  have hback := button_handler_back (button_handler gd chat uid nm k now).store
      chat uid nm now _ h1
  simp only [List.getLast?_concat] at hback
  refine ⟨(getUser gd chat uid).getD (default_user nm), _, h0, h1, rfl,
    List.getLast?_concat _, ?_, ?_, ?_⟩
  · rw [hback]
    show getUser (setUser (button_handler gd chat uid nm k now).store chat uid _) chat uid = _
    rw [getUser_setUser_self, h1]
    simp [List.dropLast_concat]
  · rw [hback]
  · rw [sub_self]
    unfold back_msg
    rw [show format_td 0 = "" from by decide, String.append_empty, String.append_assoc,
        show " (" ++ ")" = (" ()" : String) from by decide]

/-- Witness for C7: "eat" then "back" at time 100 on the empty store. -/
theorem C7_witness :
    ∃ p0 p1,
      getUser (ensure_user [] 1 2 "Bob") 1 2 = some p0 ∧
      getUser (button_handler [] 1 2 "Bob" "eat" 100).store 1 2 = some p1 ∧
      p1.activities = p0.activities ++ [⟨"eat", 100⟩] ∧
      p1.activities.getLast? = some ⟨"eat", 100⟩ ∧
      getUser (button_handler (button_handler [] 1 2 "Bob" "eat" 100).store
                 1 2 "Bob" "back" 100).store 1 2 =
        some { p1 with activities := p0.activities } ∧
      (button_handler (button_handler [] 1 2 "Bob" "eat" 100).store
         1 2 "Bob" "back" 100).answer = some (back_msg "eat" (100 - 100)) ∧
      back_msg "eat" (100 - 100) = "Back from " ++ "eat" ++ " ()" :=
  C7_push_pop [] 1 2 "Bob" "eat" 100 ⟨30, 10⟩ (by decide)

/-- C9 (confirmed): pressing an activity button for a configured kind k
pushes the record (k, now) onto the person's stack and schedules exactly
two one-shot timers, both carrying the payload (chat, uid, k): a warning
with delay limit*60 - 60 seconds and a timeout with delay limit*60
seconds; for every configured kind the warning delay is positive, so the
fire-immediately-if-negative proviso never triggers. -/
theorem C9_start_schedules (gd : GroupData) (chat uid : Int) (nm k : String) (now : Int)
    (lim : ActivityLimit) (hk : slookup ACTIVITY_LIMITS k = some lim) :
    (button_handler gd chat uid nm k now).jobs =
      [⟨"warning", lim.limit_min * 60 - 60, chat, uid, k⟩,
       ⟨"timeout", lim.limit_min * 60, chat, uid, k⟩] ∧
    (∃ p0, getUser (ensure_user gd chat uid nm) chat uid = some p0 ∧
      getUser (button_handler gd chat uid nm k now).store chat uid =
        some { p0 with activities := p0.activities ++ [⟨k, now⟩] }) ∧
    0 < lim.limit_min * 60 - 60 := by
  have hbh := button_handler_activity gd chat uid nm k now lim hk
  refine ⟨by rw [hbh], ⟨(getUser gd chat uid).getD (default_user nm),
    getUser_ensure_user_self gd chat uid nm, ?_⟩, ACTIVITY_LIMITS_delay_pos k lim hk⟩
  rw [hbh]
  show getUser (setUser (ensure_user gd chat uid nm) chat uid _) chat uid = _
  rw [getUser_setUser_self, getUser_ensure_user_self]
  rfl

/-- Witness for C9: starting "smoke" (limit 10 min) on the empty store
schedules the warning at 540 s and the timeout at 600 s, both carrying
(1, 2, "smoke"). -/
theorem C9_witness :
    (button_handler [] 1 2 "Bob" "smoke" 100).jobs =
      [⟨"warning", 540, 1, 2, "smoke"⟩, ⟨"timeout", 600, 1, 2, "smoke"⟩] ∧
    (∃ p0, getUser (ensure_user [] 1 2 "Bob") 1 2 = some p0 ∧
      getUser (button_handler [] 1 2 "Bob" "smoke" 100).store 1 2 =
        some { p0 with activities := p0.activities ++ [⟨"smoke", 100⟩] }) ∧
    (0 : Int) < 540 :=
  C9_start_schedules [] 1 2 "Bob" "smoke" 100 ⟨10, 10⟩ (by decide)
